import Mathlib

/-!
Verification development for the Mealie MCP server
(`src/mealie_mcp/server.py` and `src/mealie_mcp/client.py`).

The Python tool layer is shallowly embedded: JSON values become the
inductive `JVal`, every backend endpoint becomes a response oracle in the
`Env` structure, and each tool is a function returning an
`Except PyErr JVal` (the JSON document it would serialize, or the Python
exception it would raise) paired with the ordered list of backend calls it
issued (`List BCall`).  Python truthiness, `dict.get`, subscripting and
`str()` rendering are modelled by dedicated helpers.
-/

namespace Mealie

/-- JSON-like values, the shapes flowing between the tools and the backend.
Python `None` is `jnull`; numbers are modelled as integers (no claim
depends on float behaviour). -/
inductive JVal where
  | jnull : JVal
  | jbool : Bool → JVal
  | jint : Int → JVal
  | jstr : String → JVal
  | jarr : List JVal → JVal
  | jobj : List (String × JVal) → JVal

/-- Python `dict.get(k)` on a value already known to be a dict:
first binding of the key, `none` when absent.  (On non-dicts the
exception-raising variants `pyGet`/`pyGetD` below are used.) -/
def JVal.get : JVal → String → Option JVal
  | .jobj fs, k => fs.lookup k
  | _, _ => none

/-- Python `type(v).__name__` for the modelled value shapes. -/
def pyTypeName : JVal → String
  | .jnull => "NoneType"
  | .jbool _ => "bool"
  | .jint _ => "int"
  | .jstr _ => "str"
  | .jarr _ => "list"
  | .jobj _ => "dict"

/-- Python truthiness of a value (`None`, `False`, `0`, `""`, `[]`, and
an empty dict are falsy). -/
def truthy : JVal → Bool
  | .jnull => false
  | .jbool b => b
  | .jint n => n != 0
  | .jstr s => s != ""
  | .jarr xs => !xs.isEmpty
  | .jobj fs => !fs.isEmpty

/-- Truthiness of an `Optional[str]` argument (`None` and `""` are falsy). -/
def optTruthyS : Option String → Bool
  | none => false
  | some s => s != ""

/-- Truthiness of the result of a `dict.get(k)` call (missing key means
Python `None`, which is falsy). -/
def optTruthyJ : Option JVal → Bool
  | none => false
  | some v => truthy v

/-- A single apostrophe character, used to build the quoted substrings that
appear in the Python format strings of the server. -/
def q : String := String.singleton (Char.ofNat 39)

mutual
/-- Python `repr(v)` for the modelled value shapes (used by `str()` on
containers). -/
def pyRepr : JVal → String
  | .jnull => "None"
  | .jbool b => if b then "True" else "False"
  | .jint n => toString n
  | .jstr s => q ++ s ++ q
  | .jarr xs => "[" ++ pyReprList xs ++ "]"
  | .jobj fs => "\x7b" ++ pyReprObj fs ++ "\x7d"

/-- Comma-separated `repr` rendering of a list of values. -/
def pyReprList : List JVal → String
  | [] => ""
  | [x] => pyRepr x
  | x :: xs => pyRepr x ++ ", " ++ pyReprList xs

/-- Comma-separated `repr` rendering of dict entries. -/
def pyReprObj : List (String × JVal) → String
  | [] => ""
  | [(k, v)] => q ++ k ++ q ++ ": " ++ pyRepr v
  | (k, v) :: fs => q ++ k ++ q ++ ": " ++ pyRepr v ++ ", " ++ pyReprObj fs
end

/-- Python `str(v)`: identity on strings, `repr` rendering otherwise. -/
def pyStr : JVal → String
  | .jstr s => s
  | v => pyRepr v

/-- An HTTP error response from the Mealie backend (status `>= 400`),
as raised by `MealieClient._request` (client.py lines 50-59). -/
structure HErr where
  status : Nat
  msg : String

/-- The Python exceptions relevant to the tool layer: `httpx.HTTPStatusError`
(with status code and stringified message), `ValueError` (including
`json.JSONDecodeError`), and any other exception (`KeyError`,
`AttributeError`, `TypeError`, `OverflowError`, ...) which the tools only
ever handle through their generic `except Exception` arm. -/
inductive PyErr where
  | http : Nat → String → PyErr
  | value : String → PyErr
  | other : String → PyErr

/-- One backend API call, recorded in the order the tool issues it. -/
inductive BCall where
  | createRecipe : String → BCall
  | getRecipe : String → BCall
  | updateRecipe : String → JVal → BCall
  | deleteRecipe : String → BCall
  | parseIngredient : String → BCall
  | createUnit : JVal → BCall
  | createFood : JVal → BCall
  | createMealPlan : JVal → BCall
  | uploadImage : String → String → String → BCall

/-- Result of running a tool (or a fragment of one): the value produced or
the exception raised, together with the trace of backend calls made. -/
def M (α : Type) : Type := Except PyErr α × List BCall

/-- Return a value without touching the backend. -/
def M.pure {α : Type} (a : α) : M α := (Except.ok a, [])

/-- Raise a Python exception without touching the backend. -/
def M.throw {α : Type} (e : PyErr) : M α := (Except.error e, [])

/-- Lift a pure fallible computation (no backend calls). -/
def liftE {α : Type} (x : Except PyErr α) : M α := (x, [])

/-- Sequencing: run `x`; on an exception the rest is skipped, otherwise the
traces are concatenated in order. -/
def andThen {α β : Type} (x : M α) (f : α → M β) : M β :=
  match x with
  | (Except.error e, t) => (Except.error e, t)
  | (Except.ok a, t) => ((f a).1, t ++ (f a).2)

/-- The environment a tool invocation runs against: one response oracle per
backend endpoint used by the tool layer (client.py), plus the two external
library functions the tools call (`json.loads`, and the direct image
download done with `httpx` in `upload_recipe_image`). -/
structure Env where
  create_recipe_resp : String → Except HErr String
  get_recipe_resp : String → Except HErr JVal
  update_recipe_resp : String → JVal → Except HErr JVal
  delete_recipe_resp : String → Except HErr JVal
  parse_ingredient_endpoint : String → Except HErr JVal
  create_unit_resp : JVal → Except HErr JVal
  create_food_resp : JVal → Except HErr JVal
  create_meal_plan_resp : JVal → Except HErr JVal
  upload_image_resp : String → String → String → Except HErr JVal
  http_get_image : String → Except PyErr String
  jsonLoads : String → Except String JVal

/-- An HTTP error raised by the client surfaces as `httpx.HTTPStatusError`. -/
def mapHttp {α : Type} : Except HErr α → Except PyErr α
  | .error e => .error (.http e.status e.msg)
  | .ok a => .ok a

/-- Python `v[k]`: `KeyError` when the key is missing, `TypeError` when the
value is not a dict. -/
def JVal.getItem (v : JVal) (k : String) : Except PyErr JVal :=
  match v with
  | .jobj fs =>
    match fs.lookup k with
    | some x => .ok x
    | none => .error (.other ("KeyError: " ++ k))
  | _ => .error (.other "TypeError: object is not subscriptable")

/-- Python `v.get(k)`: `AttributeError` when `v` is not a dict. -/
def pyGet (v : JVal) (k : String) : Except PyErr (Option JVal) :=
  match v with
  | .jobj fs => .ok (fs.lookup k)
  | _ => .error (.other "AttributeError: object has no attribute get")

/-- Python `v.get(k, d)`: `AttributeError` when `v` is not a dict. -/
def pyGetD (v : JVal) (k : String) (d : JVal) : Except PyErr JVal :=
  match v with
  | .jobj fs => .ok ((fs.lookup k).getD d)
  | _ => .error (.other "AttributeError: object has no attribute get")

/-- Python `for x in v`: lists iterate elements, strings iterate characters,
dicts iterate keys, other values raise `TypeError`. -/
def pyIter (v : JVal) : Except PyErr (List JVal) :=
  match v with
  | .jarr xs => .ok xs
  | .jstr s => .ok (s.toList.map (fun c => JVal.jstr (String.singleton c)))
  | .jobj fs => .ok (fs.map (fun p => JVal.jstr p.1))
  | _ => .error (.other "TypeError: object is not iterable")

/-- `MealieClient.create_recipe` (client.py lines 106-108): returns the new
slug (the endpoint answers with a JSON string). -/
def client_create_recipe (env : Env) (name : String) : M String :=
  (mapHttp (env.create_recipe_resp name), [BCall.createRecipe name])

/-- `MealieClient.get_recipe` (client.py lines 102-104). -/
def client_get_recipe (env : Env) (slug : String) : M JVal :=
  (mapHttp (env.get_recipe_resp slug), [BCall.getRecipe slug])

/-- `MealieClient.update_recipe` (client.py lines 110-112). -/
def client_update_recipe (env : Env) (slug : String) (data : JVal) : M JVal :=
  (mapHttp (env.update_recipe_resp slug data), [BCall.updateRecipe slug data])

/-- `MealieClient.delete_recipe` (client.py lines 114-116). -/
def client_delete_recipe (env : Env) (slug : String) : M JVal :=
  (mapHttp (env.delete_recipe_resp slug), [BCall.deleteRecipe slug])

/-- `MealieClient.parse_ingredient` (client.py lines 182-189): posts the
text and projects `result.get("ingredient", \x7b\x7d)` out of the response. -/
def client_parse_ingredient (env : Env) (text : String) : M JVal :=
  (match env.parse_ingredient_endpoint text with
   | .error e => .error (.http e.status e.msg)
   | .ok r => pyGetD r "ingredient" (.jobj []),
   [BCall.parseIngredient text])

/-- `MealieClient.create_unit` (client.py lines 191-193). -/
def client_create_unit (env : Env) (name : JVal) : M JVal :=
  (mapHttp (env.create_unit_resp name), [BCall.createUnit name])

/-- `MealieClient.create_food` (client.py lines 195-197). -/
def client_create_food (env : Env) (name : JVal) : M JVal :=
  (mapHttp (env.create_food_resp name), [BCall.createFood name])

/-- `_ensure_list` (server.py lines 175-184): accept a list as is, decode a
string with `json.loads` and require a list, raise `ValueError` otherwise.
`json.JSONDecodeError` is a subclass of `ValueError`. -/
def m_ensure_list (env : Env) (value : JVal) : M (List JVal) :=
  match value with
  | .jarr xs => M.pure xs
  | .jstr s =>
    match env.jsonLoads s with
    | .error emsg => M.throw (.value emsg)
    | .ok parsed =>
      match parsed with
      | .jarr xs => M.pure xs
      | p => M.throw (.value ("Expected array, got: " ++ pyTypeName p))
  | v => M.throw (.value ("Expected array, got: " ++ pyTypeName v))

/-- `_parse_instruction` (server.py lines 187-193): a string or a dict with
a `text` field becomes a Mealie instruction object, anything else raises
`ValueError`. -/
def parse_instruction_f (inst : JVal) : Except PyErr JVal :=
  match inst with
  | .jstr s => .ok (.jobj [("text", .jstr s), ("ingredientReferences", .jarr [])])
  | .jobj fs =>
    match fs.lookup "text" with
    | some t => .ok (.jobj [("text", t), ("ingredientReferences", .jarr [])])
    | none =>
      .error (.value ("Instruction must be a string or object with " ++ q ++ "text" ++ q
        ++ " field, got: " ++ pyStr (.jobj fs)))
  | v =>
    .error (.value ("Instruction must be a string or object with " ++ q ++ "text" ++ q
      ++ " field, got: " ++ pyStr v))

/-- The list comprehension `[_parse_instruction(inst) for inst in l]`,
stopping at the first raised `ValueError`. -/
def parse_instructions : List JVal → Except PyErr (List JVal)
  | [] => .ok []
  | inst :: rest => do
    let j ← parse_instruction_f inst
    let js ← parse_instructions rest
    .ok (j :: js)

/-- `_ensure_unit` (server.py lines 196-203): `None` stays `None`; a
reference whose `id` is truthy is used as is; otherwise the unit is created
through the backend and the issued `id`/`name` are used. -/
def m_ensure_unit (env : Env) (unit_data : JVal) : M JVal :=
  match unit_data with
  | .jnull => M.pure .jnull
  | u =>
    andThen (liftE (pyGet u "id")) fun oid =>
    if optTruthyJ oid then
      andThen (liftE (u.getItem "id")) fun i =>
      andThen (liftE (u.getItem "name")) fun nm =>
      M.pure (.jobj [("id", i), ("name", nm)])
    else
      andThen (liftE (u.getItem "name")) fun nm =>
      andThen (client_create_unit env nm) fun r =>
      andThen (liftE (r.getItem "id")) fun rid =>
      andThen (liftE (r.getItem "name")) fun rnm =>
      M.pure (.jobj [("id", rid), ("name", rnm)])

/-- `_ensure_food` (server.py lines 206-213), the food twin of
`m_ensure_unit`. -/
def m_ensure_food (env : Env) (food_data : JVal) : M JVal :=
  match food_data with
  | .jnull => M.pure .jnull
  | u =>
    andThen (liftE (pyGet u "id")) fun oid =>
    if optTruthyJ oid then
      andThen (liftE (u.getItem "id")) fun i =>
      andThen (liftE (u.getItem "name")) fun nm =>
      M.pure (.jobj [("id", i), ("name", nm)])
    else
      andThen (liftE (u.getItem "name")) fun nm =>
      andThen (client_create_food env nm) fun r =>
      andThen (liftE (r.getItem "id")) fun rid =>
      andThen (liftE (r.getItem "name")) fun rnm =>
      M.pure (.jobj [("id", rid), ("name", rnm)])

/-- `_parse_and_prepare_ingredient` (server.py lines 216-225): parse the
text through the backend, then resolve unit and food references. -/
def m_parse_and_prepare (env : Env) (text : String) : M JVal :=
  andThen (client_parse_ingredient env text) fun parsed =>
  andThen (liftE (pyGet parsed "quantity")) fun qo =>
  andThen (liftE (pyGet parsed "unit")) fun uo =>
  andThen (m_ensure_unit env (uo.getD .jnull)) fun u =>
  andThen (liftE (pyGet parsed "food")) fun fo =>
  andThen (m_ensure_food env (fo.getD .jnull)) fun f =>
  andThen (liftE (pyGetD parsed "note" (.jstr ""))) fun note =>
  M.pure (.jobj [("quantity", qo.getD .jnull), ("unit", u), ("food", f),
    ("note", note), ("display", .jstr text)])

/-- The dict-entry coercion `ing = ing.get("note") or ing.get("text") or
str(ing)` (server.py lines 268-269 and 370-371); non-dict entries pass
through unchanged. -/
def coerce_ing : JVal → JVal
  | .jobj fs =>
    let a := (fs.lookup "note").getD .jnull
    let b := (fs.lookup "text").getD .jnull
    if truthy a then a else if truthy b then b else .jstr (pyStr (.jobj fs))
  | v => v

/-- The per-ingredient loop of `create_recipe` (server.py lines 266-275)
and `update_recipe` (lines 368-377): coerce each entry, return the error
envelope (with the given hint text) as the tool result if the coerced entry
is not a string, otherwise parse-and-prepare it.  `Sum.inl` is the early
error-envelope return, `Sum.inr` the prepared ingredient list. -/
def coerce_loop (env : Env) (hint : String) : List JVal → M (Sum JVal (List JVal))
  | [] => M.pure (.inr [])
  | ing :: rest =>
    match coerce_ing ing with
    | .jstr s =>
      andThen (m_parse_and_prepare env s) fun p =>
      andThen (coerce_loop env hint rest) fun r =>
      M.pure (match r with
        | .inl e => .inl e
        | .inr ps => .inr (p :: ps))
    | v =>
      M.pure (.inl (.jobj [
        ("error", .jstr ("Ingredient must be a string, got: " ++ pyTypeName v)),
        ("hint", .jstr hint)]))

/-- Hint text of the early ingredient error in `create_recipe`
(server.py line 273). -/
def create_hint : String :=
  "Pass ingredients as a list of strings like [\"500g flour\", \"2 eggs\"]"

/-- Hint text of the early ingredient error in `update_recipe`
(server.py line 375). -/
def update_hint : String := "Pass ingredients as a list of strings"

/-- The `except` cascade shared by `create_recipe` (server.py lines
306-320) and `update_recipe` (lines 398-412): HTTP errors, `ValueError`
and any other exception are reshaped into error envelopes; only the
`hint` texts differ between the two tools. -/
def catch_envelope (httpHint valueHint : String) (m : M JVal) : M JVal :=
  match m with
  | (Except.ok j, t) => (Except.ok j, t)
  | (Except.error (.http st msg), t) =>
    (Except.ok (.jobj [("error", .jstr ("API error: " ++ toString st)),
      ("details", .jstr msg), ("hint", .jstr httpHint)]), t)
  | (Except.error (.value msg), t) =>
    (Except.ok (.jobj [("error", .jstr msg), ("hint", .jstr valueHint)]), t)
  | (Except.error (.other msg), t) =>
    (Except.ok (.jobj [("error", .jstr ("Unexpected error: " ++ msg))]), t)

/-- The `try` body of the `create_recipe` tool (server.py lines 255-304):
create a stub by name, fetch it, normalize the ingredient and instruction
lists, build the full update payload and send it. -/
def create_recipe_body (env : Env) (name description : String)
    (ingredients instructions : JVal)
    (prep_time cook_time servings : Option String) : M JVal :=
  andThen (client_create_recipe env name) fun slug =>
  andThen (client_get_recipe env slug) fun recipe =>
  andThen (m_ensure_list env ingredients) fun ingredient_list =>
  andThen (m_ensure_list env instructions) fun _instruction_list =>
  andThen (coerce_loop env create_hint ingredient_list) fun r =>
  match r with
  | .inl errj => M.pure errj
  | .inr parsed =>
    andThen (liftE (recipe.getItem "id")) fun rid =>
    andThen (liftE (parse_instructions _instruction_list)) fun instrs =>
    let ud : List (String × JVal) :=
      [("id", rid),
       ("userId", (recipe.get "userId").getD .jnull),
       ("householdId", (recipe.get "householdId").getD .jnull),
       ("groupId", (recipe.get "groupId").getD .jnull),
       ("name", .jstr name),
       ("slug", .jstr slug),
       ("description", .jstr description),
       ("recipeIngredient", .jarr parsed),
       ("recipeInstructions", .jarr instrs)]
      ++ (if optTruthyS prep_time then [("prepTime", .jstr (prep_time.getD ""))] else [])
      ++ (if optTruthyS cook_time then [("performTime", .jstr (cook_time.getD ""))] else [])
      ++ (if optTruthyS servings then [("recipeYield", .jstr (servings.getD ""))] else [])
    andThen (client_update_recipe env slug (.jobj ud)) fun updated =>
    andThen (liftE (pyGetD updated "slug" (.jstr slug))) fun oslug =>
    andThen (liftE (pyGet updated "id")) fun oid =>
    M.pure (.jobj [("success", .jbool true), ("slug", oslug),
      ("id", oid.getD .jnull), ("name", .jstr name),
      ("message", .jstr ("Recipe " ++ q ++ name ++ q ++ " created successfully"))])

/-- The `create_recipe` tool (server.py lines 228-320). -/
def create_recipe_tool (env : Env) (name description : String)
    (ingredients instructions : JVal)
    (prep_time cook_time servings : Option String) : M JVal :=
  catch_envelope "Check that all required fields are provided correctly"
    "Check the format of ingredients and instructions"
    (create_recipe_body env name description ingredients instructions
      prep_time cook_time servings)

/-- The ingredients block of `update_recipe` (server.py lines 366-378):
when the argument is truthy, decode it and run the per-ingredient loop;
`Sum.inl` is the early error-envelope return, `Sum.inr` the (possibly
empty) extra payload fields. -/
def update_ingredients_step (env : Env) (ingredients : JVal) :
    M (Sum JVal (List (String × JVal))) :=
  if truthy ingredients then
    andThen (m_ensure_list env ingredients) fun il =>
    andThen (coerce_loop env update_hint il) fun r =>
    M.pure (match r with
      | .inl e => .inl e
      | .inr ps => .inr [("recipeIngredient", .jarr ps)])
  else M.pure (.inr [])

/-- The instructions block of `update_recipe` (server.py lines 379-381). -/
def update_instructions_step (env : Env) (instructions : JVal) :
    M (List (String × JVal)) :=
  if truthy instructions then
    andThen (m_ensure_list env instructions) fun il =>
    andThen (liftE (parse_instructions il)) fun is2 =>
    M.pure [("recipeInstructions", .jarr is2)]
  else M.pure []

/-- The `try` body of the `update_recipe` tool (server.py lines 350-396):
fetch the existing recipe, start the payload from its identifiers (with
`name or recipe.get("name")`), then append only the truthy optional
fields, and send the update. -/
def update_recipe_body (env : Env) (slug : String)
    (name description : Option String) (ingredients instructions : JVal)
    (prep_time cook_time servings : Option String) : M JVal :=
  andThen (client_get_recipe env slug) fun recipe =>
  andThen (liftE (recipe.getItem "id")) fun rid =>
  let base : List (String × JVal) :=
    [("id", rid),
     ("userId", (recipe.get "userId").getD .jnull),
     ("householdId", (recipe.get "householdId").getD .jnull),
     ("groupId", (recipe.get "groupId").getD .jnull),
     ("name", if optTruthyS name then .jstr (name.getD "")
       else (recipe.get "name").getD .jnull),
     ("slug", .jstr slug)]
  let d1 := base ++
    (if optTruthyS description then [("description", .jstr (description.getD ""))] else [])
  andThen (update_ingredients_step env ingredients) fun res =>
  match res with
  | .inl errj => M.pure errj
  | .inr ingFields =>
    andThen (update_instructions_step env instructions) fun instFields =>
    let ud := d1 ++ ingFields ++ instFields
      ++ (if optTruthyS prep_time then [("prepTime", .jstr (prep_time.getD ""))] else [])
      ++ (if optTruthyS cook_time then [("performTime", .jstr (cook_time.getD ""))] else [])
      ++ (if optTruthyS servings then [("recipeYield", .jstr (servings.getD ""))] else [])
    andThen (client_update_recipe env slug (.jobj ud)) fun updated =>
    andThen (liftE (pyGet updated "slug")) fun oslug =>
    andThen (liftE (pyGet updated "name")) fun onm =>
    M.pure (.jobj [("success", .jbool true), ("slug", oslug.getD .jnull),
      ("name", onm.getD .jnull),
      ("message", .jstr "Recipe updated successfully")])

/-- The `update_recipe` tool (server.py lines 323-412). -/
def update_recipe_tool (env : Env) (slug : String)
    (name description : Option String) (ingredients instructions : JVal)
    (prep_time cook_time servings : Option String) : M JVal :=
  catch_envelope "Check that the recipe slug exists and fields are correct"
    "Check the format of ingredients and instructions"
    (update_recipe_body env slug name description ingredients instructions
      prep_time cook_time servings)

/-- Flattening of one ingredient in `get_recipe` (server.py lines 143-149):
unit and food sub-objects are reduced to their `name` when the sub-object
is truthy, `None` otherwise. -/
def flatten_ing (ing : JVal) : Except PyErr JVal := do
  let note ← pyGet ing "note"
  let qty ← pyGet ing "quantity"
  let uo ← pyGet ing "unit"
  let unitv ←
    if optTruthyJ uo then do
      let u ← pyGetD ing "unit" (.jobj [])
      let n ← pyGet u "name"
      Except.ok (n.getD .jnull)
    else Except.ok JVal.jnull
  let fo ← pyGet ing "food"
  let foodv ←
    if optTruthyJ fo then do
      let f ← pyGetD ing "food" (.jobj [])
      let n ← pyGet f "name"
      Except.ok (n.getD .jnull)
    else Except.ok JVal.jnull
  Except.ok (.jobj [("note", note.getD .jnull), ("quantity", qty.getD .jnull),
    ("unit", unitv), ("food", foodv)])

/-- Flattening of one instruction in `get_recipe` (server.py lines
151-155). -/
def flatten_inst (inst : JVal) : Except PyErr JVal := do
  let t ← pyGet inst "text"
  Except.ok (.jobj [("text", t.getD .jnull)])

/-- The `x.get("name")` projection of the category/tag comprehensions and
the `n.get("text")` projection of the notes comprehension in `get_recipe`
(server.py lines 169-171). -/
def proj_field (k : String) (v : JVal) : Except PyErr JVal := do
  let n ← pyGet v k
  Except.ok (n.getD .jnull)

/-- Projection of a list of sub-objects, stopping at the first raised
exception, as the comprehensions do. -/
def proj_fields (k : String) : List JVal → Except PyErr (List JVal)
  | [] => .ok []
  | v :: rest => do
    let x ← proj_field k v
    let xs ← proj_fields k rest
    .ok (x :: xs)

/-- Exception-propagating map used for the ingredient and instruction
flattening loops of `get_recipe`. -/
def flatten_all (f : JVal → Except PyErr JVal) : List JVal → Except PyErr (List JVal)
  | [] => .ok []
  | v :: rest => do
    let x ← f v
    let xs ← flatten_all f rest
    .ok (x :: xs)

/-- The `get_recipe` tool (server.py lines 128-172).  Note that it has no
`try`/`except`: any exception raised below it propagates out of the tool. -/
def get_recipe_tool (env : Env) (slug : String) : M JVal :=
  andThen (client_get_recipe env slug) fun recipe =>
  andThen (liftE (pyGetD recipe "recipeIngredient" (.jarr []))) fun ri =>
  andThen (liftE (pyIter ri)) fun ringr =>
  andThen (liftE (flatten_all flatten_ing ringr)) fun ingredients =>
  andThen (liftE (pyGetD recipe "recipeInstructions" (.jarr []))) fun rinst =>
  andThen (liftE (pyIter rinst)) fun rinstl =>
  andThen (liftE (flatten_all flatten_inst rinstl)) fun instructions =>
  andThen (liftE (pyIter ((recipe.get "recipeCategory").getD (.jarr [])))) fun cats =>
  andThen (liftE (proj_fields "name" cats)) fun catNames =>
  andThen (liftE (pyIter ((recipe.get "tags").getD (.jarr [])))) fun tags =>
  andThen (liftE (proj_fields "name" tags)) fun tagNames =>
  andThen (liftE (pyIter ((recipe.get "notes").getD (.jarr [])))) fun notes =>
  andThen (liftE (proj_fields "text" notes)) fun noteTexts =>
  M.pure (.jobj [
    ("id", (recipe.get "id").getD .jnull),
    ("slug", (recipe.get "slug").getD .jnull),
    ("name", (recipe.get "name").getD .jnull),
    ("description", (recipe.get "description").getD .jnull),
    ("ingredients", .jarr ingredients),
    ("instructions", .jarr instructions),
    ("prep_time", (recipe.get "prepTime").getD .jnull),
    ("cook_time", (recipe.get "performTime").getD .jnull),
    ("total_time", (recipe.get "totalTime").getD .jnull),
    ("servings", (recipe.get "recipeYield").getD .jnull),
    ("rating", (recipe.get "rating").getD .jnull),
    ("categories", .jarr catNames),
    ("tags", .jarr tagNames),
    ("notes", .jarr noteTexts)])

/-- The `delete_recipe` tool (server.py lines 415-431); also without any
`try`/`except`. -/
def delete_recipe_tool (env : Env) (slug : String) : M JVal :=
  andThen (client_delete_recipe env slug) fun _ =>
  M.pure (.jobj [("success", .jbool true),
    ("message", .jstr ("Recipe " ++ q ++ slug ++ q ++ " deleted successfully"))])

/-- `MealieClient.create_meal_plan` (client.py lines 148-172): the entry
body always carries `date` and `entryType`; `recipeId` and `title` are
added only when truthy. -/
def client_create_meal_plan (env : Env) (date entry_type : String)
    (recipe_id : JVal) (title : Option String) : M JVal :=
  let data : JVal := .jobj (
    [("date", .jstr date), ("entryType", .jstr entry_type)]
    ++ (if truthy recipe_id then [("recipeId", recipe_id)] else [])
    ++ (if optTruthyS title then [("title", .jstr (title.getD ""))] else []))
  (mapHttp (env.create_meal_plan_resp data), [BCall.createMealPlan data])

/-- The `create_meal_plan` tool (server.py lines 517-556): when a recipe
slug is given, look the recipe up first and use its `id`. -/
def create_meal_plan_tool (env : Env) (meal_date entry_type : String)
    (recipe_slug title : Option String) : M JVal :=
  andThen
    (if optTruthyS recipe_slug then
      andThen (client_get_recipe env (recipe_slug.getD "")) fun recipe =>
      andThen (liftE (pyGet recipe "id")) fun o =>
      M.pure (o.getD .jnull)
    else M.pure .jnull) fun recipe_id =>
  andThen (client_create_meal_plan env meal_date entry_type recipe_id title) fun result =>
  andThen (liftE (pyGet result "id")) fun oid =>
  andThen (liftE (pyGet result "date")) fun od =>
  andThen (liftE (pyGet result "entryType")) fun oet =>
  M.pure (.jobj [("success", .jbool true), ("id", oid.getD .jnull),
    ("date", od.getD .jnull), ("entry_type", oet.getD .jnull),
    ("message", .jstr ("Meal plan entry created for " ++ meal_date))])

/-- Helper for `splitOnChar`, recursing over the character list with the
current (reversed) chunk. -/
def splitCharAux (c : Char) : List Char → List Char → List String
  | [], acc => [String.mk acc.reverse]
  | x :: xs, acc =>
    if x == c then String.mk acc.reverse :: splitCharAux c xs []
    else splitCharAux c xs (x :: acc)

/-- Python `s.split(sep)` for a one-character separator (the server only
splits on `"/"` and `"?"`): `"a//b".split("/") == ["a", "", "b"]` and
`"".split("/") == [""]`. -/
def splitOnChar (c : Char) (s : String) : List String := splitCharAux c s.toList []

/-- Python `s.endswith(suffix)`. -/
def str_endswith (s suf : String) : Bool := suf.toList.isSuffixOf s.toList

/-- The allow-list test `filename.endswith((".png", ".jpg", ".jpeg",
".webp"))` (server.py line 599). -/
def allowed_ext (f : String) : Bool :=
  str_endswith f ".png" || str_endswith f ".jpg"
    || str_endswith f ".jpeg" || str_endswith f ".webp"

/-- The filename derivation of `upload_recipe_image` (server.py lines
598-600): `image_url.split("/")[-1].split("?")[0]`, with the fixed
fallback when the extension is not allow-listed. -/
def derive_filename (image_url : String) : String :=
  let seg := (splitOnChar (Char.ofNat 47) image_url).getLastD ""
  let f := (splitOnChar (Char.ofNat 63) seg).headD ""
  if allowed_ext f then f else "recipe_image.png"

/-- The `upload_recipe_image` tool (server.py lines 578-608): download the
image bytes (an external fetch, errors propagate: there is no
`try`/`except`), derive the filename and upload through the client. -/
def upload_recipe_image_tool (env : Env) (slug image_url : String) : M JVal :=
  andThen (env.http_get_image image_url, []) fun image_data =>
  let filename := derive_filename image_url
  andThen (mapHttp (env.upload_image_resp slug image_data filename),
    [BCall.uploadImage slug image_data filename]) fun _ =>
  M.pure (.jobj [("success", .jbool true), ("slug", .jstr slug),
    ("message", .jstr ("Image uploaded successfully to recipe " ++ q ++ slug ++ q))])

/-- Month names as produced by `strftime("%B")`. -/
def monthNames : List String :=
  ["January", "February", "March", "April", "May", "June", "July",
   "August", "September", "October", "November", "December"]

/-- Weekday names as produced by `strftime("%A")`, starting at Monday
(proleptic-Gregorian ordinal 1, 0001-01-01, is a Monday). -/
def dayNames : List String :=
  ["Monday", "Tuesday", "Wednesday", "Thursday", "Friday", "Saturday", "Sunday"]

/-- Largest ordinal representable by `datetime.date` (9999-12-31). -/
def maxOrdinal : Nat := 3652059

/-- Civil date (year, month, day) of a proleptic-Gregorian ordinal
(`datetime.date.fromordinal`; ordinal 1 is 0001-01-01). -/
def civilFromOrdinal (o : Nat) : Nat × Nat × Nat :=
  let s := o + 305
  let era := s / 146097
  let doe := s % 146097
  let yoe := (doe - doe / 1460 + doe / 36524 - doe / 146096) / 365
  let y := yoe + era * 400
  let doy := doe - (365 * yoe + yoe / 4 - yoe / 100)
  let mp := (5 * doy + 2) / 153
  let d := doy - (153 * mp + 2) / 5 + 1
  let m := if mp < 10 then mp + 3 else mp - 9
  (if m ≤ 2 then y + 1 else y, m, d)

/-- Proleptic-Gregorian ordinal of a civil date
(`datetime.date.toordinal`). -/
def toOrdinal (y m d : Nat) : Nat :=
  let yy := if m ≤ 2 then y - 1 else y
  let era := yy / 400
  let yoe := yy % 400
  let mp := if 3 ≤ m then m - 3 else m + 9
  let doy := (153 * mp + 2) / 5 + d - 1
  let doe := yoe * 365 + yoe / 4 - yoe / 100 + doy
  era * 146097 + doe - 305

/-- Left-pad to two digits, as `%m`, `%d` do. -/
def pad2 (n : Nat) : String := if n < 10 then "0" ++ toString n else toString n

/-- Left-pad to four digits, as `date.isoformat` does for the year. -/
def pad4 (n : Nat) : String :=
  if n < 10 then "000" ++ toString n
  else if n < 100 then "00" ++ toString n
  else if n < 1000 then "0" ++ toString n
  else toString n

/-- `date.isoformat()` of an ordinal. -/
def isoformat (o : Nat) : String :=
  let c := civilFromOrdinal o
  pad4 c.1 ++ "-" ++ pad2 c.2.1 ++ "-" ++ pad2 c.2.2

/-- `strftime("%A")` of an ordinal. -/
def weekday_name (o : Nat) : String := dayNames.getD ((o + 6) % 7) ""

/-- `strftime("%B %d, %Y")` of an ordinal. -/
def formatted_date (o : Nat) : String :=
  let c := civilFromOrdinal o
  monthNames.getD (c.2.1 - 1) "" ++ " " ++ pad2 c.2.2 ++ ", " ++ toString c.1

/-- The `get_date_offset` tool (server.py lines 57-73): `today` is the
ordinal of `date.today()`.  `date.today() + timedelta(days=n)` adds at the
ordinal level and raises `OverflowError` outside `datetime.date`'s range;
the tool has no `try`/`except`, so the exception propagates.  It issues no
backend call. -/
def get_date_offset_tool (today : Nat) (days_from_today : Int) : M JVal :=
  let t : Int := (today : Int) + days_from_today
  if t < 1 ∨ (maxOrdinal : Int) < t then
    (Except.error (.other "date value out of range"), [])
  else
    let o := t.toNat
    (Except.ok (.jobj [("date", .jstr (isoformat o)),
      ("day_of_week", .jstr (weekday_name o)),
      ("formatted", .jstr (formatted_date o))]), [])

/-- A test environment in which every backend call succeeds with a small
canned response; the ingredient parser returns an empty parse (no
quantity, unit or food). -/
def okEnv : Env where
  create_recipe_resp := fun _ => .ok "new-recipe"
  get_recipe_resp := fun _ => .ok (.jobj [("id", .jstr "rid-1"), ("name", .jstr "Old Name")])
  update_recipe_resp := fun _ _ =>
    .ok (.jobj [("slug", .jstr "new-recipe"), ("id", .jstr "rid-1"), ("name", .jstr "Updated")])
  delete_recipe_resp := fun _ => .ok (.jobj [])
  parse_ingredient_endpoint := fun _ => .ok (.jobj [])
  create_unit_resp := fun _ => .ok (.jobj [("id", .jstr "u-1"), ("name", .jstr "cup")])
  create_food_resp := fun _ => .ok (.jobj [("id", .jstr "f-1"), ("name", .jstr "flour")])
  create_meal_plan_resp := fun _ =>
    .ok (.jobj [("id", .jstr "mp-1"), ("date", .jstr "2024-01-15"), ("entryType", .jstr "dinner")])
  upload_image_resp := fun _ _ _ => .ok (.jobj [])
  http_get_image := fun _ => .ok "IMGBYTES"
  jsonLoads := fun _ => .error "Expecting value: line 1 column 1 (char 0)"

/-- The test environment in which the recipe-by-slug endpoint answers with
HTTP 404, as the backend does for an unknown slug. -/
def env404 : Env := { okEnv with get_recipe_resp := fun _ => .error ⟨404, "Not Found"⟩ }

/-- Whether a value is a Python `str`. -/
def JVal.isStr : JVal → Bool
  | .jstr _ => true
  | _ => false

/-- Whether a value is a Python `list`. -/
def JVal.isArr : JVal → Bool
  | .jarr _ => true
  | _ => false

/-- A returned JSON document is an error envelope when it carries an
`error` field with a message. -/
def is_error_env (j : JVal) : Prop := ∃ s, j.get "error" = some (.jstr s)

/-- A returned JSON document is a success envelope when it carries
`success: true` and a `message` field. -/
def is_success_env (j : JVal) : Prop :=
  j.get "success" = some (.jbool true) ∧ ∃ s, j.get "message" = some (.jstr s)

/-- The uniform tool result shape of the spec: success envelope or error
envelope. -/
def is_envelope (j : JVal) : Prop := is_success_env j ∨ is_error_env j

/-- Every value a fragment can successfully produce satisfies `P`
(exception outcomes are unconstrained). -/
def okImp {α : Type} (m : M α) (P : α → Prop) : Prop :=
  ∀ a, m.1 = Except.ok a → P a

/-- The prepared ingredient produced for the text `s` when the backend
parser answers with an empty parse (no quantity, no unit, no food). -/
def mkParsedIng (s : String) : JVal :=
  .jobj [("quantity", .jnull), ("unit", .jnull), ("food", .jnull),
    ("note", .jstr ""), ("display", .jstr s)]

/-- Modelled from the spec (refinement target for claim C9, not taken from
the source): "derives a filename from the URL path (stripping query
parameters)" — first strip everything from the first question mark, then
take the last slash-separated segment of what remains, with the same
allow-list fallback. -/
def spec_path_filename (image_url : String) : String :=
  let path := (splitOnChar (Char.ofNat 63) image_url).headD ""
  let f := (splitOnChar (Char.ofNat 47) path).getLastD ""
  if allowed_ext f then f else "recipe_image.png"

theorem andThen_err {α β : Type} (e : PyErr) (t : List BCall) (f : α → M β) :
    andThen (Except.error e, t) f = (Except.error e, t) := rfl

theorem andThen_ok {α β : Type} (a : α) (t : List BCall) (f : α → M β) :
    andThen (Except.ok a, t) f = ((f a).1, t ++ (f a).2) := rfl

theorem okImp_any {α : Type} (m : M α) : okImp m (fun _ => True) := fun _ _ => trivial

theorem okImp_pure {α : Type} {P : α → Prop} {a : α} (h : P a) : okImp (M.pure a) P := by
  intro b hb
  obtain rfl : a = b := by simpa [M.pure] using hb
  exact h

theorem okImp_andThen {α β : Type} {x : M α} {f : α → M β} {P : β → Prop}
    (Q : α → Prop) (hx : okImp x Q) (hf : ∀ a, Q a → okImp (f a) P) :
    okImp (andThen x f) P := by
  intro b hb
  obtain ⟨x1, x2⟩ := x
  cases x1 with
  | error e => simp [andThen] at hb
  | ok a => exact hf a (hx a rfl) b (by simpa [andThen] using hb)

theorem okImp_of_eq {α : Type} {m m2 : M α} {P : α → Prop} (h : m = m2)
    (hm : okImp m2 P) : okImp m P := h ▸ hm

theorem okImp_elim {α : Type} {m : M α} {P : α → Prop} (hm : okImp m P)
    (a : α) (h : m.1 = Except.ok a) : P a := hm a h

attribute [irreducible] okImp

theorem err_env_cons (msg : String) (rest : List (String × JVal)) :
    is_error_env (.jobj (("error", .jstr msg) :: rest)) :=
  ⟨msg, by simp [JVal.get, List.lookup]⟩

theorem succ_env_create (v1 v2 v3 : JVal) (s : String) :
    is_success_env (.jobj [("success", .jbool true), ("slug", v1), ("id", v2),
      ("name", v3), ("message", .jstr s)]) := by
  refine ⟨by simp [JVal.get, List.lookup], ⟨s, ?_⟩⟩
  simp [JVal.get, List.lookup]

theorem succ_env_update (v1 v2 : JVal) :
    is_success_env (.jobj [("success", .jbool true), ("slug", v1), ("name", v2),
      ("message", .jstr "Recipe updated successfully")]) := by
  refine ⟨by simp [JVal.get, List.lookup], ⟨"Recipe updated successfully", ?_⟩⟩
  simp [JVal.get, List.lookup]

theorem catch_envelope_trace (h1 h2 : String) (m : M JVal) :
    (catch_envelope h1 h2 m).2 = m.2 := by
  obtain ⟨m1, t⟩ := m
  cases m1 with
  | ok j => rfl
  | error e => cases e <;> rfl

theorem catch_envelope_ok (h1 h2 : String) (m : M JVal) (hm : okImp m is_envelope) :
    ∃ j, (catch_envelope h1 h2 m).1 = Except.ok j ∧ is_envelope j := by
  obtain ⟨m1, t⟩ := m
  cases m1 with
  | ok j => exact ⟨j, rfl, okImp_elim hm j rfl⟩
  | error e =>
    cases e with
    | http st msg => exact ⟨_, rfl, Or.inr (err_env_cons _ _)⟩
    | value msg => exact ⟨_, rfl, Or.inr (err_env_cons _ _)⟩
    | other msg => exact ⟨_, rfl, Or.inr (err_env_cons _ _)⟩

/-- Claim C1, counterexample: with a backend that answers the recipe-by-slug
endpoint with HTTP 404, the `get_recipe` tool does not return an error
envelope — the `httpx.HTTPStatusError` raised by the client propagates
out of the tool (there is no `try`/`except` in `get_recipe`, server.py
lines 128-172), contradicting the claim that no tool raises past its
boundary and that a 404 surfaces as an envelope. -/
theorem c1_counterexample :
    get_recipe_tool env404 "chili"
      = (Except.error (PyErr.http 404 "Not Found"), [BCall.getRecipe "chili"]) := rfl

/-- Claim C8, counterexample: `get_date_offset` called with today =
2026-10-12 and `days_from_today = 4000000` does not return a JSON object —
the date addition overflows `datetime.date`'s range and the
`OverflowError` propagates, so the claim quantified over every integer is
false. -/
theorem c8_counterexample :
    get_date_offset_tool (toOrdinal 2026 10 12) 4000000
      = (Except.error (PyErr.other "date value out of range"), []) := rfl

theorem andThen_trace_head {α β : Type} (x1 : Except PyErr α) (c : BCall)
    (t : List BCall) (f : α → M β) :
    (andThen (x1, c :: t) f).2.head? = some c := by
  cases x1 <;> simp [andThen]

theorem andThen_trace_head2 {α β : Type} (m : M α) (f : α → M β) (c : BCall)
    (h : m.2.head? = some c) : (andThen m f).2.head? = some c := by
  obtain ⟨m1, t⟩ := m
  cases m1 with
  | error e => simpa [andThen] using h
  | ok a =>
    cases t with
    | nil => simp at h
    | cons c0 t0 => simpa [andThen] using h

/-- Claim C2 (amended): for a dict ingredient entry the coercion takes the
`note` value when it is truthy, else the `text` value when that is truthy,
else the Python string rendering `str(entry)` of the whole dict; since the
latter is always a string, a dict with neither field is parsed as its
rendering rather than rejected, and the type error is returned only when
the selected `note`/`text` value itself is not a string, reporting that
value's type. -/
theorem c2_amended :
    (∀ (fs : List (String × JVal)) (v : JVal),
      fs.lookup "note" = some v → truthy v = true → coerce_ing (.jobj fs) = v) ∧
    (∀ (fs : List (String × JVal)) (v : JVal),
      truthy ((fs.lookup "note").getD .jnull) = false →
      fs.lookup "text" = some v → truthy v = true → coerce_ing (.jobj fs) = v) ∧
    (∀ fs : List (String × JVal),
      truthy ((fs.lookup "note").getD .jnull) = false →
      truthy ((fs.lookup "text").getD .jnull) = false →
      coerce_ing (.jobj fs) = .jstr (pyStr (.jobj fs))) ∧
    (∀ (env : Env) (hint : String) (d : JVal) (rest : List JVal) (s : String),
      coerce_ing d = .jstr s →
      (coerce_loop env hint (d :: rest)).2.head? = some (BCall.parseIngredient s)) ∧
    (∀ (env : Env) (hint : String) (d : JVal) (rest : List JVal),
      (coerce_ing d).isStr = false →
      coerce_loop env hint (d :: rest)
        = (Except.ok (.inl (.jobj [
            ("error", .jstr ("Ingredient must be a string, got: " ++ pyTypeName (coerce_ing d))),
            ("hint", .jstr hint)])), [])) := by
  refine ⟨?_, ?_, ?_, ?_, ?_⟩
  · intro fs v h1 h2
    simp [coerce_ing, h1, h2]
  · intro fs v h1 h2 h3
    simp [coerce_ing, h1, h2, h3]
  · intro fs h1 h2
    simp [coerce_ing, h1, h2]
  · intro env hint d rest s hc
    simp only [coerce_loop, hc]
    apply andThen_trace_head2
    exact andThen_trace_head _ _ _ _
  · intro env hint d rest h
    cases hc : coerce_ing d with
    | jstr s => rw [hc] at h; simp [JVal.isStr] at h
    | jnull => simp only [coerce_loop, hc]; rfl
    | jbool b => simp only [coerce_loop, hc]; rfl
    | jint n => simp only [coerce_loop, hc]; rfl
    | jarr xs => simp only [coerce_loop, hc]; rfl
    | jobj fs => simp only [coerce_loop, hc]; rfl

/-- Witness for C2 (amended) at concrete inputs: a truthy `note` value is
selected, and a non-string entry (an `int`) is rejected with its type
name. -/
theorem c2_amended_witness :
    ([("note", JVal.jstr "2 eggs")].lookup "note" = some (JVal.jstr "2 eggs")
      ∧ truthy (JVal.jstr "2 eggs") = true
      ∧ coerce_ing (.jobj [("note", .jstr "2 eggs")]) = .jstr "2 eggs") ∧
    ((coerce_ing (JVal.jint 7)).isStr = false
      ∧ coerce_loop okEnv update_hint [JVal.jint 7]
        = (Except.ok (.inl (.jobj [
            ("error", .jstr ("Ingredient must be a string, got: " ++ pyTypeName (coerce_ing (JVal.jint 7)))),
            ("hint", .jstr update_hint)])), [])) :=
  ⟨⟨rfl, rfl, c2_amended.1 [("note", .jstr "2 eggs")] (.jstr "2 eggs") rfl rfl⟩,
   ⟨rfl, c2_amended.2.2.2.2 okEnv update_hint (.jint 7) [] rfl⟩⟩

theorem truthy_null : truthy .jnull = false := rfl

theorem optTruthyS_none : optTruthyS none = false := rfl

theorem update_tail_trace (env : Env) (slug : String) (B : JVal) :
    (andThen (client_update_recipe env slug B) fun updated =>
       andThen (pyGet updated "slug", ([] : List BCall)) fun oslug =>
       andThen (pyGet updated "name", ([] : List BCall)) fun onm =>
       (Except.ok (JVal.jobj [("success", JVal.jbool true),
          ("slug", oslug.getD JVal.jnull), ("name", onm.getD JVal.jnull),
          ("message", JVal.jstr "Recipe updated successfully")]),
        ([] : List BCall))).2
      = [BCall.updateRecipe slug B] := by
  cases hu : env.update_recipe_resp slug B with
  | error e => simp [client_update_recipe, mapHttp, hu, andThen]
  | ok a =>
    cases h1 : pyGet a "slug" with
    | error e1 => simp [client_update_recipe, mapHttp, hu, andThen, h1]
    | ok o1 =>
      cases h2 : pyGet a "name" with
      | error e2 => simp [client_update_recipe, mapHttp, hu, andThen, h1, h2]
      | ok o2 => simp [client_update_recipe, mapHttp, hu, andThen, h1, h2]

theorem update_min_trace (env : Env) (slug : String) (rf : List (String × JVal))
    (rid : JVal) (sv : Option String)
    (hg : env.get_recipe_resp slug = .ok (.jobj rf))
    (hid : rf.lookup "id" = some rid) :
    (update_recipe_tool env slug none none .jnull .jnull none none sv).2
      = [BCall.getRecipe slug, BCall.updateRecipe slug (.jobj (
          [("id", rid), ("userId", (rf.lookup "userId").getD .jnull),
           ("householdId", (rf.lookup "householdId").getD .jnull),
           ("groupId", (rf.lookup "groupId").getD .jnull),
           ("name", (rf.lookup "name").getD .jnull),
           ("slug", .jstr slug)]
          ++ (if optTruthyS sv then [("recipeYield", .jstr (sv.getD ""))] else [])))] := by
  unfold update_recipe_tool update_recipe_body update_ingredients_step update_instructions_step
  rw [catch_envelope_trace]
  simp only [client_get_recipe, hg, mapHttp, andThen_ok, liftE, JVal.getItem, hid,
    M.pure, truthy_null, optTruthyS_none, Bool.false_eq_true, if_false, andThen_ok,
    List.nil_append, List.append_nil]
  rw [update_tail_trace]
  simp [JVal.get]

theorem update_empty_eq_none (env : Env) (slug : String) :
    update_recipe_tool env slug (some "") (some "") (.jstr "") (.jstr "")
        (some "") (some "") (some "")
      = update_recipe_tool env slug none none .jnull .jnull none none none := rfl

/-- Claim C3, counterexample: updating only the servings of recipe `r`
(whose stored name is `Old Name`) sends an update body in which the `name`
key is present (bound to the existing name), contradicting the claim that
the name key is absent from the body. -/
theorem c3_counterexample :
    update_recipe_tool okEnv "r" none none .jnull .jnull none none (some "4 servings")
        = (Except.ok (.jobj [("success", .jbool true), ("slug", .jstr "new-recipe"),
            ("name", .jstr "Updated"),
            ("message", .jstr "Recipe updated successfully")]),
           [BCall.getRecipe "r", BCall.updateRecipe "r" (.jobj [("id", .jstr "rid-1"),
             ("userId", .jnull), ("householdId", .jnull), ("groupId", .jnull),
             ("name", .jstr "Old Name"), ("slug", .jstr "r"),
             ("recipeYield", .jstr "4 servings")])])
      ∧ (JVal.jobj [("id", .jstr "rid-1"), ("userId", .jnull), ("householdId", .jnull),
          ("groupId", .jnull), ("name", .jstr "Old Name"), ("slug", .jstr "r"),
          ("recipeYield", .jstr "4 servings")]).get "name" = some (.jstr "Old Name") :=
  ⟨rfl, rfl⟩

/-- Claim C3 (amended): with only slug and servings provided, the update
body contains `recipeYield` and omits the `description`,
`recipeIngredient` and `recipeInstructions` keys, but the `name` key is
present in the body, bound to the recipe's existing name (so the name is
unchanged in value, not absent). -/
theorem c3_amended (env : Env) (slug : String) (rf : List (String × JVal))
    (rid : JVal) (s : String)
    (hg : env.get_recipe_resp slug = .ok (.jobj rf))
    (hid : rf.lookup "id" = some rid) (hs : s ≠ "") :
    ∃ body, (update_recipe_tool env slug none none .jnull .jnull none none (some s)).2
        = [BCall.getRecipe slug, BCall.updateRecipe slug body]
      ∧ body.get "description" = none
      ∧ body.get "recipeIngredient" = none
      ∧ body.get "recipeInstructions" = none
      ∧ body.get "name" = some ((rf.lookup "name").getD .jnull)
      ∧ body.get "recipeYield" = some (.jstr s) := by
  have hbe : optTruthyS (some s) = true := by simp [optTruthyS, hs]
  refine ⟨.jobj [("id", rid), ("userId", (rf.lookup "userId").getD .jnull),
    ("householdId", (rf.lookup "householdId").getD .jnull),
    ("groupId", (rf.lookup "groupId").getD .jnull),
    ("name", (rf.lookup "name").getD .jnull),
    ("slug", .jstr slug), ("recipeYield", .jstr s)], ?_, ?_, ?_, ?_, ?_, ?_⟩
  · rw [update_min_trace env slug rf rid (some s) hg hid]
    simp [hbe]
  · simp [JVal.get, List.lookup]
  · simp [JVal.get, List.lookup]
  · simp [JVal.get, List.lookup]
  · simp [JVal.get, List.lookup]
  · simp [JVal.get, List.lookup]

/-- Witness for C3 (amended) at concrete inputs. -/
theorem c3_amended_witness :
    okEnv.get_recipe_resp "r" = .ok (.jobj [("id", .jstr "rid-1"), ("name", .jstr "Old Name")])
    ∧ ("4 servings" : String) ≠ ""
    ∧ ∃ body, (update_recipe_tool okEnv "r" none none .jnull .jnull none none
          (some "4 servings")).2
        = [BCall.getRecipe "r", BCall.updateRecipe "r" body]
      ∧ body.get "description" = none
      ∧ body.get "recipeIngredient" = none
      ∧ body.get "recipeInstructions" = none
      ∧ body.get "name" = some (([("id", JVal.jstr "rid-1"),
          ("name", JVal.jstr "Old Name")].lookup "name").getD .jnull)
      ∧ body.get "recipeYield" = some (.jstr "4 servings") :=
  ⟨rfl, by decide,
   c3_amended okEnv "r" [("id", .jstr "rid-1"), ("name", .jstr "Old Name")]
     (.jstr "rid-1") "4 servings" rfl rfl (by decide)⟩

/-- Claim C10 (confirmed): in `update_recipe` every optional argument
supplied as the empty string is treated exactly as if it had been omitted
(the tool call with all-empty optional arguments equals the call with all
of them absent), and in that case the update body carries none of the
`description`, `recipeIngredient`, `recipeInstructions`, `prepTime`,
`performTime`, `recipeYield` keys, while `name` is bound to the recipe's
existing name. -/
theorem c10_confirmed :
    (∀ (env : Env) (slug : String),
      update_recipe_tool env slug (some "") (some "") (.jstr "") (.jstr "")
          (some "") (some "") (some "")
        = update_recipe_tool env slug none none .jnull .jnull none none none) ∧
    (∀ (env : Env) (slug : String) (rf : List (String × JVal)) (rid : JVal),
      env.get_recipe_resp slug = .ok (.jobj rf) → rf.lookup "id" = some rid →
      ∃ body, (update_recipe_tool env slug (some "") (some "") (.jstr "") (.jstr "")
            (some "") (some "") (some "")).2
          = [BCall.getRecipe slug, BCall.updateRecipe slug body]
        ∧ body.get "description" = none
        ∧ body.get "recipeIngredient" = none
        ∧ body.get "recipeInstructions" = none
        ∧ body.get "prepTime" = none
        ∧ body.get "performTime" = none
        ∧ body.get "recipeYield" = none
        ∧ body.get "name" = some ((rf.lookup "name").getD .jnull)) := by
  refine ⟨fun env slug => update_empty_eq_none env slug, ?_⟩
  intro env slug rf rid hg hid
  refine ⟨.jobj [("id", rid), ("userId", (rf.lookup "userId").getD .jnull),
    ("householdId", (rf.lookup "householdId").getD .jnull),
    ("groupId", (rf.lookup "groupId").getD .jnull),
    ("name", (rf.lookup "name").getD .jnull),
    ("slug", .jstr slug)], ?_, ?_, ?_, ?_, ?_, ?_, ?_, ?_⟩
  · rw [update_empty_eq_none, update_min_trace env slug rf rid none hg hid]
    simp [optTruthyS_none]
  · simp [JVal.get, List.lookup]
  · simp [JVal.get, List.lookup]
  · simp [JVal.get, List.lookup]
  · simp [JVal.get, List.lookup]
  · simp [JVal.get, List.lookup]
  · simp [JVal.get, List.lookup]
  · simp [JVal.get, List.lookup]

/-- Witness for C10 at concrete inputs. -/
theorem c10_witness :
    (update_recipe_tool okEnv "r" (some "") (some "") (.jstr "") (.jstr "")
        (some "") (some "") (some "")
      = update_recipe_tool okEnv "r" none none .jnull .jnull none none none) ∧
    okEnv.get_recipe_resp "r" = .ok (.jobj [("id", .jstr "rid-1"), ("name", .jstr "Old Name")]) ∧
    ∃ body, (update_recipe_tool okEnv "r" (some "") (some "") (.jstr "") (.jstr "")
          (some "") (some "") (some "")).2
        = [BCall.getRecipe "r", BCall.updateRecipe "r" body]
      ∧ body.get "description" = none
      ∧ body.get "recipeIngredient" = none
      ∧ body.get "recipeInstructions" = none
      ∧ body.get "prepTime" = none
      ∧ body.get "performTime" = none
      ∧ body.get "recipeYield" = none
      ∧ body.get "name" = some (([("id", JVal.jstr "rid-1"),
          ("name", JVal.jstr "Old Name")].lookup "name").getD .jnull) :=
  ⟨c10_confirmed.1 okEnv "r", rfl,
   c10_confirmed.2 okEnv "r" [("id", .jstr "rid-1"), ("name", .jstr "Old Name")]
     (.jstr "rid-1") rfl rfl⟩

theorem catch_envelope_err (h1 h2 : String) (m : M JVal) (e : PyErr)
    (hm : m.1 = Except.error e) :
    ∃ j, (catch_envelope h1 h2 m).1 = Except.ok j ∧ is_error_env j := by
  obtain ⟨m1, t⟩ := m
  cases m1 with
  | ok j => simp at hm
  | error e2 =>
    cases e2 with
    | http st msg => exact ⟨_, rfl, err_env_cons _ _⟩
    | value msg => exact ⟨_, rfl, err_env_cons _ _⟩
    | other msg => exact ⟨_, rfl, err_env_cons _ _⟩

/-- Claim C4 (confirmed): when the `ingredients` argument is neither a
list nor a string, `create_recipe` returns an error envelope and the only
backend calls it can have made are the stub creation and its follow-up
fetch — in particular no recipe update call is issued. -/
theorem c4_confirmed (env : Env) (name description : String)
    (ingredients instructions : JVal) (pt ct sv : Option String)
    (hA : ingredients.isArr = false) (hS : ingredients.isStr = false) :
    ∃ j, (create_recipe_tool env name description ingredients instructions pt ct sv).1
        = Except.ok j
      ∧ is_error_env j
      ∧ ∀ c ∈ (create_recipe_tool env name description ingredients instructions pt ct sv).2,
          (∃ n, c = BCall.createRecipe n) ∨ (∃ s2, c = BCall.getRecipe s2) := by
  unfold create_recipe_tool
  cases hcr : env.create_recipe_resp name with
  | error e =>
    have hb : create_recipe_body env name description ingredients instructions pt ct sv
        = (Except.error (.http e.status e.msg), [BCall.createRecipe name]) := by
      unfold create_recipe_body
      simp [client_create_recipe, hcr, mapHttp, andThen]
    obtain ⟨j, hj1, hj2⟩ := catch_envelope_err _ _
      (create_recipe_body env name description ingredients instructions pt ct sv) _
      (by rw [hb])
    refine ⟨j, hj1, hj2, ?_⟩
    intro c hc
    rw [catch_envelope_trace, hb] at hc
    simp at hc
    subst hc
    exact Or.inl ⟨name, rfl⟩
  | ok slug =>
    cases hgr : env.get_recipe_resp slug with
    | error e =>
      have hb : create_recipe_body env name description ingredients instructions pt ct sv
          = (Except.error (.http e.status e.msg),
             [BCall.createRecipe name, BCall.getRecipe slug]) := by
        unfold create_recipe_body
        simp [client_create_recipe, hcr, client_get_recipe, hgr, mapHttp, andThen]
      obtain ⟨j, hj1, hj2⟩ := catch_envelope_err _ _
        (create_recipe_body env name description ingredients instructions pt ct sv) _
        (by rw [hb])
      refine ⟨j, hj1, hj2, ?_⟩
      intro c hc
      rw [catch_envelope_trace, hb] at hc
      simp at hc
      rcases hc with rfl | rfl
      · exact Or.inl ⟨name, rfl⟩
      · exact Or.inr ⟨slug, rfl⟩
    | ok recipe =>
      have hb : create_recipe_body env name description ingredients instructions pt ct sv
          = (Except.error (.value ("Expected array, got: " ++ pyTypeName ingredients)),
             [BCall.createRecipe name, BCall.getRecipe slug]) := by
        unfold create_recipe_body
        cases ingredients
        case jarr xs => simp [JVal.isArr] at hA
        case jstr s => simp [JVal.isStr] at hS
        all_goals
          simp [client_create_recipe, hcr, client_get_recipe, hgr, mapHttp,
            m_ensure_list, M.throw, andThen, pyTypeName]
      obtain ⟨j, hj1, hj2⟩ := catch_envelope_err _ _
        (create_recipe_body env name description ingredients instructions pt ct sv) _
        (by rw [hb])
      refine ⟨j, hj1, hj2, ?_⟩
      intro c hc
      rw [catch_envelope_trace, hb] at hc
      simp at hc
      rcases hc with rfl | rfl
      · exact Or.inl ⟨name, rfl⟩
      · exact Or.inr ⟨slug, rfl⟩

/-- Witness for C4 at a concrete non-list, non-string argument. -/
theorem c4_witness :
    (JVal.jint 5).isArr = false ∧ (JVal.jint 5).isStr = false ∧
    ∃ j, (create_recipe_tool okEnv "N" "D" (.jint 5) (.jarr []) none none none).1
        = Except.ok j
      ∧ is_error_env j
      ∧ ∀ c ∈ (create_recipe_tool okEnv "N" "D" (.jint 5) (.jarr []) none none none).2,
          (∃ n, c = BCall.createRecipe n) ∨ (∃ s2, c = BCall.getRecipe s2) :=
  ⟨rfl, rfl, c4_confirmed okEnv "N" "D" (.jint 5) (.jarr []) none none none rfl rfl⟩

theorem parse_prepare_canned (env : Env) (s : String)
    (hp : env.parse_ingredient_endpoint s = .ok (.jobj [])) :
    m_parse_and_prepare env s = (Except.ok (mkParsedIng s), [BCall.parseIngredient s]) := by
  unfold m_parse_and_prepare client_parse_ingredient
  rw [hp]
  rfl

theorem coerce_loop_canned (env : Env) (hint : String)
    (hp : ∀ t, env.parse_ingredient_endpoint t = .ok (.jobj [])) :
    ∀ ss : List String,
      coerce_loop env hint (ss.map JVal.jstr)
        = (Except.ok (.inr (ss.map mkParsedIng)), ss.map BCall.parseIngredient) := by
  intro ss
  induction ss with
  | nil => rfl
  | cons s rest ih =>
    simp only [List.map]
    simp only [coerce_loop, coerce_ing]
    rw [parse_prepare_canned env s (hp s)]
    simp [andThen, ih, M.pure]

theorem create_tail_trace (env : Env) (slug name : String) (B : JVal) :
    (andThen (client_update_recipe env slug B) fun updated =>
       andThen (pyGetD updated "slug" (JVal.jstr slug), ([] : List BCall)) fun oslug =>
       andThen (pyGet updated "id", ([] : List BCall)) fun oid =>
       (Except.ok (JVal.jobj [("success", JVal.jbool true), ("slug", oslug),
          ("id", oid.getD JVal.jnull), ("name", JVal.jstr name),
          ("message", JVal.jstr ("Recipe " ++ q ++ name ++ q ++ " created successfully"))]),
        ([] : List BCall))).2
      = [BCall.updateRecipe slug B] := by
  cases hu : env.update_recipe_resp slug B with
  | error e => simp [client_update_recipe, mapHttp, hu, andThen]
  | ok a =>
    cases h1 : pyGetD a "slug" (JVal.jstr slug) with
    | error e1 => simp [client_update_recipe, mapHttp, hu, andThen, h1]
    | ok o1 =>
      cases h2 : pyGet a "id" with
      | error e2 => simp [client_update_recipe, mapHttp, hu, andThen, h1, h2]
      | ok o2 => simp [client_update_recipe, mapHttp, hu, andThen, h1, h2]

/-- Claim C5 (confirmed): for a list of N ingredient strings,
`create_recipe` submits each string individually to the backend parser, in
the input order and before the final update call, and the update payload's
`recipeIngredient` list is exactly the N prepared entries in that same
order. -/
theorem c5_confirmed (env : Env) (name description slg : String)
    (rf : List (String × JVal)) (rid : JVal) (ss : List String)
    (hc : env.create_recipe_resp name = .ok slg)
    (hg : env.get_recipe_resp slg = .ok (.jobj rf))
    (hid : rf.lookup "id" = some rid)
    (hp : ∀ t, env.parse_ingredient_endpoint t = .ok (.jobj [])) :
    ∃ body, (create_recipe_tool env name description (.jarr (ss.map JVal.jstr)) (.jarr [])
          none none none).2
        = [BCall.createRecipe name, BCall.getRecipe slg]
          ++ ss.map BCall.parseIngredient ++ [BCall.updateRecipe slg body]
      ∧ body.get "recipeIngredient" = some (.jarr (ss.map mkParsedIng)) := by
  refine ⟨.jobj [("id", rid), ("userId", (rf.lookup "userId").getD .jnull),
    ("householdId", (rf.lookup "householdId").getD .jnull),
    ("groupId", (rf.lookup "groupId").getD .jnull),
    ("name", .jstr name), ("slug", .jstr slg), ("description", .jstr description),
    ("recipeIngredient", .jarr (ss.map mkParsedIng)),
    ("recipeInstructions", .jarr [])], ?_, ?_⟩
  · unfold create_recipe_tool
    rw [catch_envelope_trace]
    unfold create_recipe_body
    simp only [client_create_recipe, hc, mapHttp, andThen_ok, client_get_recipe, hg,
      m_ensure_list, M.pure, liftE, JVal.getItem, hid, optTruthyS_none,
      Bool.false_eq_true, if_false, List.append_nil, List.nil_append]
    rw [coerce_loop_canned env create_hint hp ss]
    simp only [andThen_ok, M.pure, parse_instructions, JVal.get]
    rw [create_tail_trace]
    simp [JVal.get]
  · simp [JVal.get, List.lookup]

/-- Witness for C5 at the spec's example input
`["2 cups flour", "1 tsp salt"]`. -/
theorem c5_witness :
    okEnv.create_recipe_resp "Bread" = .ok "new-recipe"
    ∧ okEnv.get_recipe_resp "new-recipe"
        = .ok (.jobj [("id", .jstr "rid-1"), ("name", .jstr "Old Name")])
    ∧ (∀ t, okEnv.parse_ingredient_endpoint t = .ok (.jobj []))
    ∧ ∃ body, (create_recipe_tool okEnv "Bread" "B"
          (.jarr (["2 cups flour", "1 tsp salt"].map JVal.jstr)) (.jarr [])
          none none none).2
        = [BCall.createRecipe "Bread", BCall.getRecipe "new-recipe"]
          ++ ["2 cups flour", "1 tsp salt"].map BCall.parseIngredient
          ++ [BCall.updateRecipe "new-recipe" body]
      ∧ body.get "recipeIngredient"
          = some (.jarr (["2 cups flour", "1 tsp salt"].map mkParsedIng)) :=
  ⟨rfl, rfl, fun t => rfl,
   c5_confirmed okEnv "Bread" "B" "new-recipe"
     [("id", .jstr "rid-1"), ("name", .jstr "Old Name")] (.jstr "rid-1")
     ["2 cups flour", "1 tsp salt"] rfl rfl rfl (fun t => rfl)⟩

/-- Claim C6 (confirmed): during ingredient normalization, an absent
(`None`) unit/food reference stays absent; a reference whose `id` is
present (truthy) is used as is with no creation call; and a reference
without an id triggers a create-unit/create-food backend call with the
reference's name, whose issued `id`/`name` are used in the resulting
ingredient. -/
theorem c6_confirmed :
    (∀ env : Env, m_ensure_unit env .jnull = (Except.ok .jnull, [])) ∧
    (∀ (env : Env) (fs : List (String × JVal)) (i nm : JVal),
      fs.lookup "id" = some i → truthy i = true → fs.lookup "name" = some nm →
      m_ensure_unit env (.jobj fs) = (Except.ok (.jobj [("id", i), ("name", nm)]), [])) ∧
    (∀ (env : Env) (fs : List (String × JVal)) (nm r rid rnm : JVal),
      optTruthyJ (fs.lookup "id") = false → fs.lookup "name" = some nm →
      env.create_unit_resp nm = .ok r → r.getItem "id" = .ok rid →
      r.getItem "name" = .ok rnm →
      m_ensure_unit env (.jobj fs)
        = (Except.ok (.jobj [("id", rid), ("name", rnm)]), [BCall.createUnit nm])) ∧
    (∀ env : Env, m_ensure_food env .jnull = (Except.ok .jnull, [])) ∧
    (∀ (env : Env) (fs : List (String × JVal)) (i nm : JVal),
      fs.lookup "id" = some i → truthy i = true → fs.lookup "name" = some nm →
      m_ensure_food env (.jobj fs) = (Except.ok (.jobj [("id", i), ("name", nm)]), [])) ∧
    (∀ (env : Env) (fs : List (String × JVal)) (nm r rid rnm : JVal),
      optTruthyJ (fs.lookup "id") = false → fs.lookup "name" = some nm →
      env.create_food_resp nm = .ok r → r.getItem "id" = .ok rid →
      r.getItem "name" = .ok rnm →
      m_ensure_food env (.jobj fs)
        = (Except.ok (.jobj [("id", rid), ("name", rnm)]), [BCall.createFood nm])) := by
  refine ⟨fun env => rfl, ?_, ?_, fun env => rfl, ?_, ?_⟩
  · intro env fs i nm h1 h2 h3
    simp [m_ensure_unit, pyGet, liftE, andThen, JVal.getItem, h1, h2, h3,
      optTruthyJ, M.pure]
  · intro env fs nm r rid rnm h1 h2 h3 h4 h5
    have hn : (JVal.jobj fs).getItem "name" = .ok nm := by simp [JVal.getItem, h2]
    simp [m_ensure_unit, pyGet, liftE, andThen, h1, hn,
      client_create_unit, mapHttp, h3, h4, h5, M.pure]
  · intro env fs i nm h1 h2 h3
    simp [m_ensure_food, pyGet, liftE, andThen, JVal.getItem, h1, h2, h3,
      optTruthyJ, M.pure]
  · intro env fs nm r rid rnm h1 h2 h3 h4 h5
    have hn : (JVal.jobj fs).getItem "name" = .ok nm := by simp [JVal.getItem, h2]
    simp [m_ensure_food, pyGet, liftE, andThen, h1, hn,
      client_create_food, mapHttp, h3, h4, h5, M.pure]

/-- Witness for C6 at concrete references: a unit carrying an id is used
as is with no backend call, and a unit without an id is created through
the backend with the issued id/name used. -/
theorem c6_witness :
    m_ensure_unit okEnv .jnull = (Except.ok .jnull, [])
    ∧ m_ensure_unit okEnv (.jobj [("id", .jstr "u-7"), ("name", .jstr "tbsp")])
        = (Except.ok (.jobj [("id", .jstr "u-7"), ("name", .jstr "tbsp")]), [])
    ∧ m_ensure_unit okEnv (.jobj [("name", .jstr "tbsp")])
        = (Except.ok (.jobj [("id", .jstr "u-1"), ("name", .jstr "cup")]),
           [BCall.createUnit (.jstr "tbsp")])
    ∧ m_ensure_food okEnv (.jobj [("name", .jstr "spelt")])
        = (Except.ok (.jobj [("id", .jstr "f-1"), ("name", .jstr "flour")]),
           [BCall.createFood (.jstr "spelt")]) :=
  ⟨c6_confirmed.1 okEnv,
   c6_confirmed.2.1 okEnv [("id", .jstr "u-7"), ("name", .jstr "tbsp")]
     (.jstr "u-7") (.jstr "tbsp") rfl rfl rfl,
   c6_confirmed.2.2.1 okEnv [("name", .jstr "tbsp")] (.jstr "tbsp")
     (.jobj [("id", .jstr "u-1"), ("name", .jstr "cup")]) (.jstr "u-1") (.jstr "cup")
     rfl rfl rfl rfl rfl,
   c6_confirmed.2.2.2.2.2 okEnv [("name", .jstr "spelt")] (.jstr "spelt")
     (.jobj [("id", .jstr "f-1"), ("name", .jstr "flour")]) (.jstr "f-1") (.jstr "flour")
     rfl rfl rfl rfl rfl⟩

theorem mealplan_tail_trace (x : Except HErr JVal) (B : JVal) (md : String) :
    (andThen ((mapHttp x : Except PyErr JVal), [BCall.createMealPlan B]) fun result =>
       andThen (pyGet result "id", ([] : List BCall)) fun oid =>
       andThen (pyGet result "date", ([] : List BCall)) fun od =>
       andThen (pyGet result "entryType", ([] : List BCall)) fun oet =>
       (Except.ok (JVal.jobj [("success", JVal.jbool true), ("id", oid.getD JVal.jnull),
          ("date", od.getD JVal.jnull), ("entry_type", oet.getD JVal.jnull),
          ("message", JVal.jstr ("Meal plan entry created for " ++ md))]),
        ([] : List BCall))).2
      = [BCall.createMealPlan B] := by
  cases x with
  | error e => simp [mapHttp, andThen]
  | ok a =>
    cases h1 : pyGet a "id" with
    | error e1 => simp [mapHttp, andThen, h1]
    | ok o1 =>
      cases h2 : pyGet a "date" with
      | error e2 => simp [mapHttp, andThen, h1, h2]
      | ok o2 =>
        cases h3 : pyGet a "entryType" with
        | error e3 => simp [mapHttp, andThen, h1, h2, h3]
        | ok o3 => simp [mapHttp, andThen, h1, h2, h3]

/-- Claim C7 (confirmed): `create_meal_plan` with a recipe slug first
issues the recipe lookup and only then the meal-plan create call,
and the `recipeId` in the create body equals the `id` field of the recipe
returned by that lookup. -/
theorem c7_confirmed (env : Env) (rs : String) (rf : List (String × JVal)) (i : JVal)
    (md et : String) (title : Option String)
    (hg : env.get_recipe_resp rs = .ok (.jobj rf))
    (hid : rf.lookup "id" = some i) (hti : truthy i = true) (hrs : rs ≠ "") :
    ∃ body, (create_meal_plan_tool env md et (some rs) title).2
        = [BCall.getRecipe rs, BCall.createMealPlan body]
      ∧ body.get "recipeId" = some i
      ∧ body.get "date" = some (.jstr md)
      ∧ body.get "entryType" = some (.jstr et) := by
  have hbe : optTruthyS (some rs) = true := by simp [optTruthyS, hrs]
  refine ⟨.jobj ([("date", .jstr md), ("entryType", .jstr et)] ++ [("recipeId", i)]
    ++ (if optTruthyS title then [("title", .jstr (title.getD ""))] else [])),
    ?_, ?_, ?_, ?_⟩
  · unfold create_meal_plan_tool client_create_meal_plan
    have hpg : pyGet (JVal.jobj rf) "id" = .ok (some i) := by simp [pyGet, hid]
    have hcg : client_get_recipe env rs = (Except.ok (JVal.jobj rf), [BCall.getRecipe rs]) := by
      simp [client_get_recipe, hg, mapHttp]
    simp only [hbe, if_true, Option.getD_some, hcg,
      andThen_ok, liftE, hpg, M.pure, optTruthyJ, hti,
      List.nil_append, List.append_nil]
    rw [mealplan_tail_trace]
    simp
  · cases hto : optTruthyS title <;> simp [JVal.get, List.lookup, hto]
  · cases hto : optTruthyS title <;> simp [JVal.get, List.lookup, hto]
  · cases hto : optTruthyS title <;> simp [JVal.get, List.lookup, hto]

/-- Witness for C7 at the spec's example input. -/
theorem c7_witness :
    okEnv.get_recipe_resp "chili"
        = .ok (.jobj [("id", .jstr "rid-1"), ("name", .jstr "Old Name")])
    ∧ truthy (JVal.jstr "rid-1") = true
    ∧ ∃ body, (create_meal_plan_tool okEnv "2024-01-15" "dinner" (some "chili") none).2
        = [BCall.getRecipe "chili", BCall.createMealPlan body]
      ∧ body.get "recipeId" = some (.jstr "rid-1")
      ∧ body.get "date" = some (.jstr "2024-01-15")
      ∧ body.get "entryType" = some (.jstr "dinner") :=
  ⟨rfl, rfl,
   c7_confirmed okEnv "chili" [("id", .jstr "rid-1"), ("name", .jstr "Old Name")]
     (.jstr "rid-1") "2024-01-15" "dinner" none rfl rfl rfl (by decide)⟩

/-- Claim C8 (amended): for every integer offset n such that today plus n
stays within `datetime.date`'s representable range (ordinals 1 to
3652059, i.e. years 1-9999), `get_date_offset` makes no backend call and
returns a JSON object whose `date` is the ISO rendering of the date
exactly n days from today, with `day_of_week` and `formatted` the weekday
name and human-formatted rendering of that same date; outside that range
the addition raises `OverflowError` instead of returning. -/
theorem c8_amended (today : Nat) (n : Int)
    (h1 : 1 ≤ (today : Int) + n) (h2 : (today : Int) + n ≤ (maxOrdinal : Int)) :
    get_date_offset_tool today n
      = (Except.ok (.jobj [
          ("date", .jstr (isoformat ((today : Int) + n).toNat)),
          ("day_of_week", .jstr (weekday_name ((today : Int) + n).toNat)),
          ("formatted", .jstr (formatted_date ((today : Int) + n).toNat))]), []) := by
  unfold get_date_offset_tool
  have hm : (maxOrdinal : Int) = 3652059 := rfl
  rw [hm] at h2
  have hcond : ¬((today : Int) + n < 1 ∨ (maxOrdinal : Int) < (today : Int) + n) := by
    rw [hm]
    omega
  rw [if_neg hcond]

/-- Witness for C8 (amended) one day back from 2026-10-12. -/
theorem c8_amended_witness :
    1 ≤ ((toOrdinal 2026 10 12 : Nat) : Int) + (-1)
    ∧ ((toOrdinal 2026 10 12 : Nat) : Int) + (-1) ≤ (maxOrdinal : Int)
    ∧ get_date_offset_tool (toOrdinal 2026 10 12) (-1)
      = (Except.ok (.jobj [
          ("date", .jstr (isoformat (((toOrdinal 2026 10 12 : Nat) : Int) + (-1)).toNat)),
          ("day_of_week", .jstr (weekday_name (((toOrdinal 2026 10 12 : Nat) : Int) + (-1)).toNat)),
          ("formatted", .jstr (formatted_date (((toOrdinal 2026 10 12 : Nat) : Int) + (-1)).toNat))]),
         []) :=
  ⟨by decide, by decide, c8_amended (toOrdinal 2026 10 12) (-1) (by decide) (by decide)⟩

theorem allowed_ext_fallback (g : String) :
    allowed_ext (if allowed_ext g then g else "recipe_image.png") = true := by
  cases hg : allowed_ext g with
  | true => simpa using hg
  | false =>
    simp only [hg, Bool.false_eq_true, if_false]
    decide

/-- Claim C9 (amended): the uploaded filename is the last slash-separated
segment of the whole URL with everything from the first question mark in
that segment stripped (which coincides with a path-derived name whenever
the query contains no slash), falling back to the fixed name when the
extension is not allow-listed — so every uploaded filename ends in an
allow-listed extension. -/
theorem c9_amended (env : Env) (slug url data : String)
    (h : env.http_get_image url = .ok data) :
    (upload_recipe_image_tool env slug url).2
        = [BCall.uploadImage slug data (derive_filename url)]
      ∧ allowed_ext (derive_filename url) = true := by
  constructor
  · unfold upload_recipe_image_tool
    rw [h]
    simp only [andThen_ok, List.nil_append]
    cases hu : env.upload_image_resp slug data (derive_filename url) with
    | error e => simp [mapHttp, hu, andThen]
    | ok a => simp [mapHttp, hu, andThen, M.pure]
  · exact allowed_ext_fallback _

/-- Witness for C9 (amended) at a concrete URL with a query string. -/
theorem c9_amended_witness :
    okEnv.http_get_image "http://example.com/images/pie.jpg?size=2" = .ok "IMGBYTES"
    ∧ (upload_recipe_image_tool okEnv "chili" "http://example.com/images/pie.jpg?size=2").2
        = [BCall.uploadImage "chili" "IMGBYTES"
            (derive_filename "http://example.com/images/pie.jpg?size=2")]
    ∧ allowed_ext (derive_filename "http://example.com/images/pie.jpg?size=2") = true :=
  ⟨rfl,
   (c9_amended okEnv "chili" "http://example.com/images/pie.jpg?size=2" "IMGBYTES" rfl).1,
   (c9_amended okEnv "chili" "http://example.com/images/pie.jpg?size=2" "IMGBYTES" rfl).2⟩

/-- Claim C9, counterexample: for the URL
`http://h/img.php?file=photos/cat.png` the code uploads the filename
`cat.png` (it splits on `/` before stripping the query), while a filename
derived from the URL path with query parameters stripped would be
`img.php`, which fails the allow-list and falls back to
`recipe_image.png`; the two disagree, so the claimed derivation is false
for this input. -/
theorem coerce_loop_errEnv (env : Env) (hint : String) :
    ∀ l, okImp (coerce_loop env hint l)
      (fun r => ∀ j, r = Sum.inl j → is_error_env j) := by
  intro l
  induction l with
  | nil =>
    apply okImp_pure
    intro j hj
    simp at hj
  | cons ing rest ih =>
    cases hc : coerce_ing ing with
    | jstr s =>
      simp only [coerce_loop, hc]
      apply okImp_andThen (fun _ => True) (okImp_any _)
      intro p _
      apply okImp_andThen _ ih
      intro r hr
      apply okImp_pure
      intro j hj
      cases r with
      | inl e =>
        cases hj
        exact hr _ rfl
      | inr ps => simp at hj
    | jnull =>
      simp only [coerce_loop, hc]
      apply okImp_pure
      intro j hj
      cases hj
      exact err_env_cons _ _
    | jbool b =>
      simp only [coerce_loop, hc]
      apply okImp_pure
      intro j hj
      cases hj
      exact err_env_cons _ _
    | jint n =>
      simp only [coerce_loop, hc]
      apply okImp_pure
      intro j hj
      cases hj
      exact err_env_cons _ _
    | jarr xs =>
      simp only [coerce_loop, hc]
      apply okImp_pure
      intro j hj
      cases hj
      exact err_env_cons _ _
    | jobj fs =>
      simp only [coerce_loop, hc]
      apply okImp_pure
      intro j hj
      cases hj
      exact err_env_cons _ _

theorem create_body_envelope (env : Env) (name description : String)
    (ingredients instructions : JVal) (pt ct sv : Option String) :
    okImp (create_recipe_body env name description ingredients instructions pt ct sv)
      is_envelope := by
  unfold create_recipe_body
  apply okImp_andThen (fun _ => True) (okImp_any _); intro slug _
  apply okImp_andThen (fun _ => True) (okImp_any _); intro recipe _
  apply okImp_andThen (fun _ => True) (okImp_any _); intro il _
  apply okImp_andThen (fun _ => True) (okImp_any _); intro instl _
  apply okImp_andThen _ (coerce_loop_errEnv env create_hint il); intro r hr
  cases r with
  | inl errj => exact okImp_pure (Or.inr (hr errj rfl))
  | inr parsed =>
    apply okImp_andThen (fun _ => True) (okImp_any _); intro rid _
    apply okImp_andThen (fun _ => True) (okImp_any _); intro instrs _
    apply okImp_andThen (fun _ => True) (okImp_any _); intro updated _
    apply okImp_andThen (fun _ => True) (okImp_any _); intro oslug _
    apply okImp_andThen (fun _ => True) (okImp_any _); intro oid _
    exact okImp_pure (Or.inl (succ_env_create _ _ _ _))

theorem update_ing_step_errEnv (env : Env) (ingredients : JVal) :
    okImp (update_ingredients_step env ingredients)
      (fun res => ∀ j, res = Sum.inl j → is_error_env j) := by
  unfold update_ingredients_step
  split
  · apply okImp_andThen (fun _ => True) (okImp_any _)
    intro il _
    apply okImp_andThen _ (coerce_loop_errEnv env update_hint il)
    intro r hr
    apply okImp_pure
    intro j hj
    cases r with
    | inl e =>
      cases hj
      exact hr _ rfl
    | inr ps => simp at hj
  · apply okImp_pure
    intro j hj
    simp at hj

theorem update_body_envelope (env : Env) (slug : String)
    (name description : Option String) (ingredients instructions : JVal)
    (pt ct sv : Option String) :
    okImp (update_recipe_body env slug name description ingredients instructions pt ct sv)
      is_envelope := by
  unfold update_recipe_body
  apply okImp_andThen (fun _ => True) (okImp_any _); intro recipe _
  apply okImp_andThen (fun _ => True) (okImp_any _); intro rid _
  apply okImp_andThen _ (update_ing_step_errEnv env ingredients); intro res hres
  cases res with
  | inl errj => exact okImp_pure (Or.inr (hres errj rfl))
  | inr ingFields =>
    apply okImp_andThen (fun _ => True) (okImp_any _); intro instFields _
    apply okImp_andThen (fun _ => True) (okImp_any _); intro updated _
    apply okImp_andThen (fun _ => True) (okImp_any _); intro oslug _
    apply okImp_andThen (fun _ => True) (okImp_any _); intro onm _
    exact okImp_pure (Or.inl (succ_env_update _ _))

/-- Claim C1 (amended): the two tools that wrap their body in
`try`/`except` — `create_recipe` and `update_recipe` — return, for every
environment and every input, a JSON document that is a success or an error
envelope and never raise; the tools without a `try`/`except`
(`get_recipe`, `delete_recipe`) propagate the client's
`httpx.HTTPStatusError` instead of returning an envelope, so a backend 404
on `get_recipe` surfaces as a raised exception carrying status 404. -/
theorem c1_amended :
    (∀ (env : Env) (name description : String) (ingredients instructions : JVal)
        (pt ct sv : Option String),
      ∃ j, (create_recipe_tool env name description ingredients instructions pt ct sv).1
          = Except.ok j ∧ is_envelope j) ∧
    (∀ (env : Env) (slug : String) (nm ds : Option String)
        (ingredients instructions : JVal) (pt ct sv : Option String),
      ∃ j, (update_recipe_tool env slug nm ds ingredients instructions pt ct sv).1
          = Except.ok j ∧ is_envelope j) ∧
    (∀ (env : Env) (slug : String) (st : Nat) (msg : String),
      env.get_recipe_resp slug = .error ⟨st, msg⟩ →
      (get_recipe_tool env slug).1 = Except.error (.http st msg)) ∧
    (∀ (env : Env) (slug : String) (st : Nat) (msg : String),
      env.delete_recipe_resp slug = .error ⟨st, msg⟩ →
      (delete_recipe_tool env slug).1 = Except.error (.http st msg)) := by
  refine ⟨?_, ?_, ?_, ?_⟩
  · intro env name description ingredients instructions pt ct sv
    exact catch_envelope_ok _ _ _
      (create_body_envelope env name description ingredients instructions pt ct sv)
  · intro env slug nm ds ingredients instructions pt ct sv
    exact catch_envelope_ok _ _ _
      (update_body_envelope env slug nm ds ingredients instructions pt ct sv)
  · intro env slug st msg h
    simp [get_recipe_tool, client_get_recipe, mapHttp, h, andThen]
  · intro env slug st msg h
    simp [delete_recipe_tool, client_delete_recipe, mapHttp, h, andThen]

/-- Witness for C1 (amended) at concrete inputs: `create_recipe` on the
canned environment yields an envelope, and `get_recipe` on the 404
environment raises the 404 error. -/
theorem c1_amended_witness :
    (∃ j, (create_recipe_tool okEnv "Cake" "A cake" (.jarr []) (.jarr []) none none none).1
        = Except.ok j ∧ is_envelope j) ∧
    env404.get_recipe_resp "chili" = .error ⟨404, "Not Found"⟩ ∧
    (get_recipe_tool env404 "chili").1 = Except.error (.http 404 "Not Found") :=
  ⟨c1_amended.1 okEnv "Cake" "A cake" (.jarr []) (.jarr []) none none none,
   rfl,
   c1_amended.2.2.1 env404 "chili" 404 "Not Found" rfl⟩

/-- Claim C2, counterexample: a dict ingredient entry with neither a
`note` nor a `text` field does not make `create_recipe` return an error —
the coercion `ing.get("note") or ing.get("text") or str(ing)` falls back
to `str(ing)`, which is a string, so the empty dict is parsed as the
ingredient text `\x7b\x7d` and the tool succeeds. -/
theorem c2_counterexample :
    create_recipe_tool okEnv "Cake" "A cake" (.jarr [.jobj []]) (.jarr []) none none none
      = (Except.ok (.jobj [("success", .jbool true), ("slug", .jstr "new-recipe"),
          ("id", .jstr "rid-1"), ("name", .jstr "Cake"),
          ("message", .jstr ("Recipe " ++ q ++ "Cake" ++ q ++ " created successfully"))]),
         [BCall.createRecipe "Cake", BCall.getRecipe "new-recipe",
          BCall.parseIngredient "\x7b\x7d",
          BCall.updateRecipe "new-recipe" (.jobj [("id", .jstr "rid-1"),
            ("userId", .jnull), ("householdId", .jnull), ("groupId", .jnull),
            ("name", .jstr "Cake"), ("slug", .jstr "new-recipe"),
            ("description", .jstr "A cake"),
            ("recipeIngredient", .jarr [mkParsedIng "\x7b\x7d"]),
            ("recipeInstructions", .jarr [])])]) := rfl

theorem c9_counterexample :
    upload_recipe_image_tool okEnv "chili" "http://h/img.php?file=photos/cat.png"
        = (Except.ok (.jobj [("success", .jbool true), ("slug", .jstr "chili"),
            ("message", .jstr ("Image uploaded successfully to recipe " ++ q ++ "chili" ++ q))]),
           [BCall.uploadImage "chili" "IMGBYTES" "cat.png"])
      ∧ spec_path_filename "http://h/img.php?file=photos/cat.png" = "recipe_image.png"
      ∧ ("cat.png" : String) ≠ "recipe_image.png" :=
  ⟨rfl, rfl, by decide⟩

end Mealie
